import Mathlib

/- Shallow embedding of src/app.py (DEI Sentinel dashboard): the data-generation
functions and the derived metrics computed in the four tabs of the app. -/

/- Calendar dates: pandas Timestamp subtraction yields exact day differences,
modelled by a proleptic Gregorian day count. -/

structure CivilDate where
  year : ℕ
  month : ℕ
  day : ℕ
deriving DecidableEq

def isLeapYear (y : ℕ) : Bool :=
  (y % 4 == 0 && y % 100 != 0) || (y % 400 == 0)

def monthLengths (leap : Bool) : List ℕ :=
  [31, if leap then 29 else 28, 31, 30, 31, 30, 31, 31, 30, 31, 30, 31]

def cumDaysBeforeMonth (leap : Bool) (m : ℕ) : ℕ :=
  ((monthLengths leap).take (m - 1)).foldl (· + ·) 0

def leapYearsBefore (y : ℕ) : ℕ :=
  (y - 1) / 4 - (y - 1) / 100 + (y - 1) / 400

/-- Proleptic Gregorian day number; differences of this count are the exact day
differences produced by pandas Timestamp subtraction (`.days`). -/
def dateToDayNumber (d : CivilDate) : ℕ :=
  365 * (d.year - 1) + leapYearsBefore d.year
    + cumDaysBeforeMonth (isLeapYear d.year) d.month + d.day

/- generate_patient_timeline (src/app.py lines 96-110): the fixed 6-event
case study for patient 2008116375, columns Date / Event / Cost / Shadow / Type. -/

structure TimelineEvent where
  date : CivilDate
  event : String
  cost : ℤ
  shadow : Bool
  category : String
deriving DecidableEq

def generate_patient_timeline : List TimelineEvent :=
  [ ⟨⟨2008, 1, 15⟩, "GP Visit - General Fatigue", 150, true, "GP"⟩,
    ⟨⟨2008, 2, 20⟩, "GP Visit - Vision Blur", 150, true, "GP"⟩,
    ⟨⟨2008, 3, 10⟩, "Optometrist Referral", 300, true, "Specialist"⟩,
    ⟨⟨2008, 4, 5⟩, "ER Visit - Fainting", 1200, true, "ER"⟩,
    ⟨⟨2008, 5, 12⟩, "Endocrinologist Consult", 290, true, "Specialist"⟩,
    ⟨⟨2008, 6, 30⟩, "Inpatient Admission - DIABETES DIAGNOSIS", 15000, false, "Inpatient"⟩ ]

/-- Embedding of src/app.py line 267:
shadow_cost = timeline_df[timeline_df[Shadow] == True][Cost].sum(). -/
def shadow_cost : ℤ :=
  ((generate_patient_timeline.filter (fun e => e.shadow)).map (fun e => e.cost)).sum

def timelineDayNumbers : List ℕ :=
  generate_patient_timeline.map (fun e => dateToDayNumber e.date)

/-- Embedding of src/app.py lines 302-304: start_date = Date.min(),
end_date = Date.max(), latency_days = (end_date - start_date).days. -/
def latency_days : ℕ :=
  match timelineDayNumbers with
  | [] => 0
  | d :: ds => ds.foldl max d - ds.foldl min d

/- generate_radar_data (src/app.py lines 86-94): the three disease archetypes
with Waste / Latency / Fragmentation scores. -/

structure ArchetypeScores where
  waste : ℚ
  latency : ℚ
  fragmentation : ℚ
deriving DecidableEq

def generate_radar_data : List (String × ArchetypeScores) :=
  [("Heart Failure", ⟨9/10, 4/10, 5/10⟩),
   ("Diabetes", ⟨3/10, 9/10, 3/10⟩),
   ("Lung Cancer", ⟨6/10, 5/10, 9/10⟩)]

/- generate_equity_data (src/app.py lines 112-126) and the Race gap metrics
computed in tab 3 (lines 415-432). -/

def generate_equity_data : List (String × List (String × ℤ)) :=
  [("Race", [("White", 152), ("Black", 164), ("Hispanic", 158)]),
   ("Gender", [("Male", 153), ("Female", 150)])]

def raceDays (g : String) : ℤ :=
  (((generate_equity_data.lookup "Race").getD []).lookup g).getD 0

def race_baseline : ℤ :=
  raceDays "White"

def black_gap : ℤ :=
  raceDays "Black" - race_baseline

def hispanic_gap : ℤ :=
  raceDays "Hispanic" - race_baseline

def black_gap_percent : ℚ :=
  ((black_gap : ℚ) / (race_baseline : ℚ)) * 100

def hispanic_gap_percent : ℚ :=
  ((hispanic_gap : ℚ) / (race_baseline : ℚ)) * 100

/-- One-decimal rounding, as performed by the percent display format in the
gap metrics of src/app.py lines 423 and 430. -/
def round1 (q : ℚ) : ℚ :=
  (round (10 * q) : ℤ) / 10

/- The ROI simulator (src/app.py lines 531-573): research-backed archetype
gaps, cohort size, and the projected-savings arithmetic. -/

def HF_GAP : ℚ := 3624

def DM_GAP : ℚ := 3926

def LC_GAP : ℚ := 10737

def COHORT_SIZE : ℚ := 14446

/-- Embedding of src/app.py line 567: patients_per_archetype = COHORT_SIZE / 3,
Python true division (no rounding to an integer). -/
def patients_per_archetype : ℚ :=
  COHORT_SIZE / 3

def hf_savings (redundancy_reduction : ℚ) : ℚ :=
  patients_per_archetype * HF_GAP * (redundancy_reduction / 100)

def dm_savings (latency_reduction : ℚ) : ℚ :=
  patients_per_archetype * DM_GAP * (latency_reduction / 100)

def lc_savings (fragmentation_reduction : ℚ) : ℚ :=
  patients_per_archetype * LC_GAP * (fragmentation_reduction / 100)

def total_savings (r l f : ℚ) : ℚ :=
  hf_savings r + dm_savings l + lc_savings f

/- Spec-side validation model, used only to compare against the source. -/

inductive SavingsError where
  | invalidInput
deriving DecidableEq

/-- Validation behaviour stated by the spec (reject lever percents outside
[0,100] with an InvalidInputError instead of computing); the source has no
such check, so this definition follows the words of the spec and serves only
for comparison with total_savings, the embedding of the source. -/
def compute_projected_savings_spec (r l f : ℚ) : Except SavingsError ℚ :=
  if 0 ≤ r ∧ r ≤ 100 ∧ 0 ≤ l ∧ l ≤ 100 ∧ 0 ≤ f ∧ f ≤ 100 then
    Except.ok (total_savings r l f)
  else
    Except.error SavingsError.invalidInput

/-- Embedding of generate_efficiency_scatter_data (src/app.py lines 128-148),
parameterized over the binary64 semantics of the NumPy global RNG: S is the
MT19937 state type, F the float type, seedFn the action of np.random.seed,
uniformDraw and normalDraw the legacy samplers taking (low/loc, high/scale, n),
and affine the float computation base_cost + dei * 500 + noise. The argument s
is the global RNG state at call time; the source overwrites it with
np.random.seed(42) before drawing, so s is never read. -/
def generate_efficiency_scatter_data {S F : Type} (seedFn : ℕ → S)
    (uniformDraw : ℚ → ℚ → ℕ → S → List F × S)
    (normalDraw : ℚ → ℚ → ℕ → S → List F × S)
    (affine : ℚ → F → ℚ → F → F) (s : S) : List (F × F) × S :=
  let s0 := seedFn 42
  let n := 200
  let p1 := uniformDraw 0 3 n s0
  let p2 := normalDraw 0 8000 n p1.2
  let total_cost := List.zipWith (fun d e => affine 15000 d 500 e) p1.1 p2.1
  (p1.1.zip total_cost, p2.2)

/- Theorems for the claims. -/

/-- Claim C1: shadow_cost is the sum of the costs of exactly the events whose
shadow flag is true, this sum is 150 + 150 + 300 + 1200 + 290 = 2090, and the
15000-cost diagnosis event is excluded (it is the only cost missing from the
timeline's total). -/
theorem shadow_cost_is_2090 :
    shadow_cost
        = ((generate_patient_timeline.filter (fun e => e.shadow)).map (fun e => e.cost)).sum
    ∧ shadow_cost = 150 + 150 + 300 + 1200 + 290
    ∧ shadow_cost = 2090
    ∧ (generate_patient_timeline.map (fun e => e.cost)).sum = shadow_cost + 15000 := by
  refine ⟨rfl, by decide, by decide, by decide⟩

/-- Claim C2, evaluated on the code: the latency computed by the source as the
day difference between the maximal and minimal event dates of the fixture is
167 days (2008 is a leap year), not the 166 days stated by the claim and by the
source's own comment and caption. -/
theorem latency_days_is_167 :
    latency_days = dateToDayNumber ⟨2008, 6, 30⟩ - dateToDayNumber ⟨2008, 1, 15⟩
    ∧ latency_days = 167
    ∧ latency_days ≠ 166 := by
  refine ⟨by decide, by decide, by decide⟩

/-- Claim C3: total_savings is the sum over the three levers of
patients_per_archetype * gap * (percent / 100); doubling one lever doubles that
lever's contribution; all levers at zero give zero; all levers at 100 give the
sum of patients_per_archetype * gap over the archetypes. -/
theorem total_savings_linear :
    (∀ r l f : ℚ, total_savings r l f = hf_savings r + dm_savings l + lc_savings f)
    ∧ (∀ r l f : ℚ, total_savings r l f =
        patients_per_archetype * HF_GAP * (r / 100)
        + patients_per_archetype * DM_GAP * (l / 100)
        + patients_per_archetype * LC_GAP * (f / 100))
    ∧ (∀ r : ℚ, hf_savings (2 * r) = 2 * hf_savings r)
    ∧ (∀ l : ℚ, dm_savings (2 * l) = 2 * dm_savings l)
    ∧ (∀ f : ℚ, lc_savings (2 * f) = 2 * lc_savings f)
    ∧ total_savings 0 0 0 = 0
    ∧ total_savings 100 100 100 =
        patients_per_archetype * HF_GAP + patients_per_archetype * DM_GAP
          + patients_per_archetype * LC_GAP := by
  refine ⟨fun r l f => rfl, fun r l f => rfl, ?_, ?_, ?_, ?_, ?_⟩
  · intro r
    unfold hf_savings
    ring
  · intro l
    unfold dm_savings
    ring
  · intro f
    unfold lc_savings
    ring
  · unfold total_savings hf_savings dm_savings lc_savings
    ring
  · unfold total_savings hf_savings dm_savings lc_savings
    ring

/-- Claim C4: with Race baseline White = 152, the Black gap is 164 - 152 = 12
days and displays as +7.9 percent, the Hispanic gap is 158 - 152 = 6 days and
displays as +3.9 percent (percent = gap / baseline * 100 rounded to one
decimal). -/
theorem race_equity_gaps :
    race_baseline = 152
    ∧ black_gap = 12
    ∧ hispanic_gap = 6
    ∧ round1 black_gap_percent = 79 / 10
    ∧ round1 hispanic_gap_percent = 39 / 10 := by
  refine ⟨by decide, by decide, by decide, ?_, ?_⟩
  · have h : black_gap_percent = 150 / 19 := by
      have hb : black_gap = 12 := by decide
      have hr : race_baseline = 152 := by decide
      unfold black_gap_percent
      rw [hb, hr]
      push_cast
      norm_num
    unfold round1
    rw [h, round_eq]
    norm_num
  · have h : hispanic_gap_percent = 75 / 19 := by
      have hg : hispanic_gap = 6 := by decide
      have hr : race_baseline = 152 := by decide
      unfold hispanic_gap_percent
      rw [hg, hr]
      push_cast
      norm_num
    unfold round1
    rw [h, round_eq]
    norm_num

/-- Claim C5, counterexample: at lever 150 (outside [0,100]) the source
computation returns the numeric value 26176152 instead of rejecting, while the
validation described by the spec rejects that input. -/
theorem total_savings_no_validation_at_150 :
    ¬ ((150 : ℚ) ≤ 100)
    ∧ total_savings 150 0 0 = 26176152
    ∧ compute_projected_savings_spec 150 0 0 = Except.error SavingsError.invalidInput := by
  refine ⟨by norm_num, ?_, ?_⟩
  · unfold total_savings hf_savings dm_savings lc_savings patients_per_archetype
    unfold COHORT_SIZE HF_GAP DM_GAP LC_GAP
    norm_num
  · unfold compute_projected_savings_spec
    rw [if_neg]
    intro h
    exact absurd h.2.1 (by norm_num)

/-- Claim C5, amended: the source computation performs no input validation; for
every lever setting, in range or not, it returns the value of the linear
formula COHORT_SIZE / 3 * (gap dot percents) / 100. -/
theorem total_savings_computes_for_all_inputs :
    ∀ r l f : ℚ, total_savings r l f
      = COHORT_SIZE / 3 * (HF_GAP * r + DM_GAP * l + LC_GAP * f) / 100 := by
  intro r l f
  unfold total_savings hf_savings dm_savings lc_savings patients_per_archetype
  ring

/-- Claim C7: generate_radar_data has exactly the three archetypes Heart
Failure, Diabetes and Lung Cancer, and every Waste, Latency and Fragmentation
score lies in [0,1]. -/
theorem radar_data_three_archetypes :
    generate_radar_data.length = 3
    ∧ generate_radar_data.map Prod.fst = ["Heart Failure", "Diabetes", "Lung Cancer"]
    ∧ (generate_radar_data.all fun p =>
        decide (0 ≤ p.2.waste ∧ p.2.waste ≤ 1
          ∧ 0 ≤ p.2.latency ∧ p.2.latency ≤ 1
          ∧ 0 ≤ p.2.fragmentation ∧ p.2.fragmentation ≤ 1)) = true := by
  refine ⟨rfl, rfl, ?_⟩
  simp only [generate_radar_data, List.all_cons, List.all_nil, Bool.and_eq_true,
    decide_eq_true_eq, Bool.and_true]
  norm_num

/-- Claim C8: the timeline is the fixed 6-event sequence, strictly sorted by
date ascending, and exactly one event, the last one (the diagnosis), has its
shadow flag false while all earlier events have it true. -/
theorem timeline_sorted_single_diagnosis :
    generate_patient_timeline.length = 6
    ∧ List.Chain' (· < ·) timelineDayNumbers
    ∧ generate_patient_timeline.map (fun e => e.shadow)
        = [true, true, true, true, true, false]
    ∧ (generate_patient_timeline.filter (fun e => !e.shadow)).length = 1
    ∧ (generate_patient_timeline.getLast?.map fun e => e.shadow) = some false := by
  refine ⟨rfl, ?_, rfl, rfl, rfl⟩
  simp only [timelineDayNumbers, generate_patient_timeline, List.map_cons, List.map_nil,
    List.chain'_cons, List.chain'_singleton, and_true]
  refine ⟨?_, ?_, ?_, ?_, ?_⟩ <;> decide

/-- Claim C9: each generator is deterministic across calls: the three literal
generators are constants, and the scatter generator's output does not depend on
the incoming global RNG state, for any semantics of the float samplers, because
the source reseeds with np.random.seed(42) before drawing. -/
theorem generators_idempotent :
    (∀ (S F : Type) (seedFn : ℕ → S)
        (uniformDraw normalDraw : ℚ → ℚ → ℕ → S → List F × S)
        (affine : ℚ → F → ℚ → F → F) (s₁ s₂ : S),
        generate_efficiency_scatter_data seedFn uniformDraw normalDraw affine s₁
          = generate_efficiency_scatter_data seedFn uniformDraw normalDraw affine s₂)
    ∧ generate_radar_data = generate_radar_data
    ∧ generate_patient_timeline = generate_patient_timeline
    ∧ generate_equity_data = generate_equity_data := by
  exact ⟨fun _ _ _ _ _ _ _ _ => rfl, rfl, rfl, rfl⟩

/-- Claim C10: for every lever setting, total_savings equals
14446 / 3 * (3624 p1 + 3926 p2 + 10737 p3) / 100 exactly; the per-archetype
cohort is the fractional (non-integer) value 14446 / 3, and the
all-levers-at-100 total is the non-integer value 14446 * 18287 / 3. -/
theorem total_savings_closed_form :
    (∀ p1 p2 p3 : ℚ, total_savings p1 p2 p3
        = 14446 / 3 * (3624 * p1 + 3926 * p2 + 10737 * p3) / 100)
    ∧ patients_per_archetype = 14446 / 3
    ∧ (¬ ∃ n : ℤ, patients_per_archetype = (n : ℚ))
    ∧ total_savings 100 100 100 = 14446 * 18287 / 3
    ∧ (¬ ∃ n : ℤ, total_savings 100 100 100 = (n : ℚ)) := by
  have hform : ∀ p1 p2 p3 : ℚ, total_savings p1 p2 p3
      = 14446 / 3 * (3624 * p1 + 3926 * p2 + 10737 * p3) / 100 := by
    intro p1 p2 p3
    unfold total_savings hf_savings dm_savings lc_savings patients_per_archetype
    unfold COHORT_SIZE HF_GAP DM_GAP LC_GAP
    ring
  have hppa : patients_per_archetype = 14446 / 3 := rfl
  have htot : total_savings 100 100 100 = 14446 * 18287 / 3 := by
    rw [hform]
    norm_num
  refine ⟨hform, hppa, ?_, htot, ?_⟩
  · rintro ⟨n, hn⟩
    rw [hppa] at hn
    have h3 : (14446 : ℚ) = n * 3 := by
      field_simp at hn
      linarith
    have hz : (14446 : ℤ) = n * 3 := by exact_mod_cast h3
    omega
  · rintro ⟨n, hn⟩
    rw [htot] at hn
    have h3 : (14446 * 18287 : ℚ) = n * 3 := by
      field_simp at hn
      linarith
    have hz : (14446 * 18287 : ℤ) = n * 3 := by exact_mod_cast h3
    omega
